import Mathlib

/-!
Shallow embedding of the JSHost delivery decision engine
(`backend/validators.py`, the delivery endpoints of `backend/server.py`).

Python strings are modelled as `List Char`; the functions below mirror the
Python source line by line.  `str.lower()` is modelled on the ASCII range
(every input the platform handles is an ASCII hostname/header), `str.strip()`
strips the ASCII whitespace characters Python strips.
-/

namespace JSHost

/-- Characters removed by Python `str.strip()` (ASCII whitespace). -/
def pyIsSpace (c : Char) : Bool :=
  c = ' ' || c = '\t' || c = '\n' || c = '\r' || c = '\x0b' || c = '\x0c'

/-- ASCII model of Python `str.lower()` applied to one character. -/
def pyLowerChar (c : Char) : Char :=
  if c = 'A' then 'a' else if c = 'B' then 'b' else if c = 'C' then 'c'
  else if c = 'D' then 'd' else if c = 'E' then 'e' else if c = 'F' then 'f'
  else if c = 'G' then 'g' else if c = 'H' then 'h' else if c = 'I' then 'i'
  else if c = 'J' then 'j' else if c = 'K' then 'k' else if c = 'L' then 'l'
  else if c = 'M' then 'm' else if c = 'N' then 'n' else if c = 'O' then 'o'
  else if c = 'P' then 'p' else if c = 'Q' then 'q' else if c = 'R' then 'r'
  else if c = 'S' then 's' else if c = 'T' then 't' else if c = 'U' then 'u'
  else if c = 'V' then 'v' else if c = 'W' then 'w' else if c = 'X' then 'x'
  else if c = 'Y' then 'y' else if c = 'Z' then 'z' else c

/-- Python `str.lower()`. -/
def lowerStr (s : List Char) : List Char := s.map pyLowerChar

/-- Leading-whitespace removal (`str.lstrip()`). -/
def stripLeft (s : List Char) : List Char := s.dropWhile pyIsSpace

/-- Trailing-whitespace removal (`str.rstrip()`). -/
def stripRight (s : List Char) : List Char := (s.reverse.dropWhile pyIsSpace).reverse

/-- Python `str.strip()`. -/
def pyStrip (s : List Char) : List Char := stripRight (stripLeft s)

/-- Python `needle in hay` for strings: substring containment. -/
def containsSub (n : List Char) : List Char → Bool
  | [] => n.isEmpty
  | c :: t => List.isPrefixOf n (c :: t) || containsSub n t

/-- Split a string at the first occurrence of `n`: `some (before, after)` when
`n` occurs, `none` otherwise. -/
def breakOnSub (n : List Char) : List Char → Option (List Char × List Char)
  | [] => if n.isEmpty then some ([], []) else none
  | c :: t =>
    if List.isPrefixOf n (c :: t) then some ([], (c :: t).drop n.length)
    else
      match breakOnSub n t with
      | some (pre, post) => some (c :: pre, post)
      | none => none

/-- Python `s.split(n)[0]`: the part before the first occurrence of `n`
(the whole string when `n` does not occur). -/
def beforeSub (n s : List Char) : List Char :=
  match breakOnSub n s with
  | some (pre, _) => pre
  | none => s

/-- Python `s.split(n)[1]` under the guard `n in s`: the segment between the
first and the second occurrence of `n` (everything after the first occurrence
when there is no second one). -/
def splitSecond (n s : List Char) : List Char :=
  match breakOnSub n s with
  | some (_, post) => beforeSub n post
  | none => s

/-- Python `str.replace(old, new)` (all non-overlapping occurrences, left to
right), with fuel bounding the number of rounds; `s.length + 1` rounds always
suffice because each round consumes at least one character of `s`. -/
def pyReplaceFuel : Nat → List Char → List Char → List Char → List Char
  | 0, _, _, s => s
  | fuel + 1, old, new, s =>
    match breakOnSub old s with
    | some (pre, post) => pre ++ new ++ pyReplaceFuel fuel old new post
    | none => s

/-- Python `s.replace(old, new)` for a non-empty `old`. -/
def pyReplace (old new s : List Char) : List Char :=
  if old.isEmpty then s else pyReplaceFuel (s.length + 1) old new s

/-- Python `s.split(sep)` for a single-character separator. -/
def splitOnChar (sep : Char) : List Char → List (List Char)
  | [] => [[]]
  | c :: t =>
    if c = sep then [] :: splitOnChar sep t
    else
      match splitOnChar sep t with
      | h :: r => (c :: h) :: r
      | [] => [[c]]

/-- Python `s.rstrip(sep)` for one character (used for `rstrip('/')`). -/
def rstripChar (sep : Char) (s : List Char) : List Char :=
  (s.reverse.dropWhile (fun c => c = sep)).reverse

/-- `a-z` or `0-9`: the anchor class of the hostname regex. -/
def alnumLowerChar (c : Char) : Bool :=
  ('a' ≤ c && c ≤ 'z') || ('0' ≤ c && c ≤ '9')

/-- The inner class `[a-z0-9.-]` of the hostname regex. -/
def hostChar (c : Char) : Bool := alnumLowerChar c || c = '.' || c = '-'

/-- Tail of the hostname regex after its first character: `[a-z0-9.-]*[a-z0-9]$`. -/
def hostReTail : List Char → Bool
  | [] => false
  | [c] => alnumLowerChar c
  | c :: rest => hostChar c && hostReTail rest

/-- Model of `re.match(r'^[a-z0-9][a-z0-9.-]*[a-z0-9]$', s)` being a match
(the argument is already stripped, so the `$` end anchor is exact). -/
def matchesHostRe : List Char → Bool
  | [] => false
  | c :: rest => alnumLowerChar c && hostReTail rest

/-! ## `backend/validators.py` -/

/-- `validators.validate_domain_pattern`: validate a whitelist pattern,
returning `(is_valid, message)`. -/
def validate_domain_pattern (pattern : List Char) : Bool × String :=
  if pattern.isEmpty then (false, "Domain pattern cannot be empty")
  else
    let pattern := pyStrip (lowerStr pattern)
    if 255 < pattern.length then (false, "Domain pattern too long (max 255)")
    else if containsSub "://".data pattern || pattern.contains '/' then
      (false, "Domain pattern must not contain protocol or path")
    else if pattern.contains ':' then
      (false, "Domain pattern must not contain port")
    else if pattern = "*".data then
      (false, "Bare wildcard (*) is not allowed")
    else if pattern.contains '*' then
      if ¬ List.isPrefixOf "*.".data pattern then
        (false, "Wildcard only allowed as leading *.")
      else
        let rest := pattern.drop 2
        if rest.contains '*' then (false, "Only one wildcard allowed")
        else if ¬ rest.contains '.' then
          (false, "Wildcard domain must have at least one dot")
        else if ¬ matchesHostRe rest then
          (false, "Invalid domain format after wildcard")
        else (true, "Valid")
    else
      if ¬ pattern.contains '.' then
        (false, "Domain must contain at least one dot (no localhost)")
      else if ¬ matchesHostRe pattern then
        (false, "Domain contains invalid characters (only a-z, 0-9, ., - allowed)")
      else (true, "Valid")

/-- `validators.normalize_domain`: extract and normalize a domain from an
Origin/Referer header value. -/
def normalize_domain (raw : List Char) : List Char :=
  if raw.isEmpty then []
  else
    let d0 := pyStrip (lowerStr raw)
    let d1 := if containsSub "://".data d0 then splitSecond "://".data d0 else d0
    let d2 := if d1.contains ':' then beforeSub ":".data d1 else d1
    let d3 := if d2.contains '/' then beforeSub "/".data d2 else d2
    d3

/-- `validators.is_domain_allowed`: whitelist matching, exact set membership
or single-level wildcard suffix comparison. -/
def is_domain_allowed (domain : List Char) (patterns : List (List Char)) : Bool :=
  if domain.isEmpty || patterns.isEmpty then false
  else
    let domain := normalize_domain domain
    let cleaned := patterns.map fun p => pyStrip (lowerStr p)
    let exact_patterns := cleaned.filter fun p => !List.isPrefixOf "*.".data p
    let wildcard_patterns := cleaned.filter fun p => List.isPrefixOf "*.".data p
    if exact_patterns.contains domain then true
    else
      wildcard_patterns.any fun p =>
        let suffix := p.drop 2
        List.isSuffixOf ('.' :: suffix) domain && domain != suffix

/-! ## `backend/server.py`: request/response model -/

/-- The request headers the delivery endpoints consult.  A missing header is
modelled as the empty string, exactly as `request.headers.get(name, '')`
yields (and as the truthiness tests in the source treat it). -/
structure Headers where
  secFetchDest : List Char := []
  secFetchMode : List Char := []
  accept : List Char := []
  origin : List Char := []
  referer : List Char := []
  userAgent : List Char := []
deriving DecidableEq, Repr

/-- The observable parts of a FastAPI `Response`: status code, media type,
extra headers, body. -/
structure HttpResponse where
  status : Nat
  mediaType : List Char
  headers : List (List Char × List Char)
  body : List Char
deriving DecidableEq, Repr

/-- `NOOP_JS` from `server.py`. -/
def NOOP_JS : List Char := "/* unauthorized or inactive */\n/* noop */".data

/-- `JS_CACHE_HEADERS` from `server.py`. -/
def JS_CACHE_HEADERS : List (List Char × List Char) :=
  [("Cache-Control".data, "public, max-age=60".data),
   ("Vary".data, "Origin, Referer".data)]

/-- The media type every JS delivery response carries. -/
def jsMediaType : List Char := "application/javascript; charset=utf-8".data

/-- A 200 JavaScript response with the shared cache headers
(`Response(content=..., media_type=..., headers=JS_CACHE_HEADERS)`). -/
def jsResponse (content : List Char) : HttpResponse :=
  { status := 200, mediaType := jsMediaType, headers := JS_CACHE_HEADERS, body := content }

/-- `noop_response()` as defined inside both delivery endpoints. -/
def noop_response : HttpResponse := jsResponse NOOP_JS

/-- The fixed client-side popunder engine (`POPUNDER_ENGINE_TEMPLATE` in `server.py`),
with the placeholders `__CONFIG__` and `__API_BASE__` still in place. -/
def POPUNDER_ENGINE_TEMPLATE : List Char :=
  "(function()\x7b\nvar c = __CONFIG__;\nvar apiBase = __API_BASE__;\n\n// Storage key for frequency tracking\nvar sk = 'popunder_' + c.id;\n\n// Get today's date as string for daily cap\nfunction getToday() \x7b\n    var d = new Date();\n    return d.getFullYear() + '-' + (d.getMonth()+1) + '-' + d.getDate();\n\x7d\n\n// Check frequency cap (per user per day)\nfunction checkFrequency() \x7b\n    try \x7b\n        var data = JSON.parse(localStorage.getItem(sk) || '\x7b\x7d');\n        var today = getToday();\n        if (data.date !== today) \x7b\n            data = \x7b date: today, count: 0 \x7d;\n        \x7d\n        if (data.count >= c.freq) return false;\n        return true;\n    \x7d catch(e) \x7b return true; \x7d\n\x7d\n\n// Mark show count\nfunction markShown() \x7b\n    try \x7b\n        var data = JSON.parse(localStorage.getItem(sk) || '\x7b\x7d');\n        var today = getToday();\n        if (data.date !== today) \x7b\n            data = \x7b date: today, count: 0 \x7d;\n        \x7d\n        data.count++;\n        localStorage.setItem(sk, JSON.stringify(data));\n    \x7d catch(e) \x7b\x7d\n\x7d\n\n// Detect device type\nfunction getDeviceType() \x7b\n    var ua = navigator.userAgent.toLowerCase();\n    if (/(tablet|ipad|playbook|silk)|(android(?!.*mobi))/i.test(ua)) return 'tablet';\n    if (/mobile|iphone|ipod|android|blackberry|opera mini|iemobile/i.test(ua)) return 'mobile';\n    return 'desktop';\n\x7d\n\n// Check device targeting\nfunction checkDevice() \x7b\n    if (!c.devices || c.devices.length === 0) return true;\n    return c.devices.indexOf(getDeviceType()) !== -1;\n\x7d\n\n// Get random URL from list\nfunction getUrl() \x7b\n    if (!c.urls || c.urls.length === 0) return null;\n    return c.urls[Math.floor(Math.random() * c.urls.length)];\n\x7d\n\n// Track analytics event\nfunction trackEvent(eventType, targetUrl) \x7b\n    try \x7b\n        var data = \x7b\n            campaign_id: c.id,\n            event_type: eventType,\n            referer_url: window.location.href,\n            target_url: targetUrl || '',\n            device_type: getDeviceType()\n        \x7d;\n        var xhr = new XMLHttpRequest();\n        xhr.open('POST', apiBase + '/api/popunder-analytics', true);\n        xhr.setRequestHeader('Content-Type', 'application/json');\n        xhr.send(JSON.stringify(data));\n    \x7d catch(e) \x7b\x7d\n\x7d\n\n// Check country targeting via IP API (client-side)\nfunction checkCountry(callback) \x7b\n    if (!c.countries || c.countries.length === 0) \x7b\n        callback(true);\n        return;\n    \x7d\n    try \x7b\n        var xhr = new XMLHttpRequest();\n        xhr.open('GET', 'https://ip-api.com/json/?fields=countryCode', true);\n        xhr.timeout = 3000;\n        xhr.onreadystatechange = function() \x7b\n            if (xhr.readyState === 4) \x7b\n                if (xhr.status === 200) \x7b\n                    try \x7b\n                        var data = JSON.parse(xhr.responseText);\n                        var userCountry = data.countryCode || '';\n                        callback(c.countries.indexOf(userCountry) !== -1);\n                    \x7d catch(e) \x7b callback(true); \x7d\n                \x7d else \x7b\n                    callback(true); // Allow on error\n                \x7d\n            \x7d\n        \x7d;\n        xhr.ontimeout = function() \x7b callback(true); \x7d;\n        xhr.onerror = function() \x7b callback(true); \x7d;\n        xhr.send();\n    \x7d catch(e) \x7b callback(true); \x7d\n\x7d\n\n// True popunder - opens behind the current window\n// The popup opens first, but the main tab stays on screen (popup goes behind)\nfunction openPopunder() \x7b\n    var url = getUrl();\n    if (!url) return;\n    if (!checkFrequency()) return;\n    if (!checkDevice()) return;\n    \n    try \x7b\n        // Enhanced popunder technique\n        // Step 1: Calculate window position (same as current window)\n        var w = window.innerWidth || document.documentElement.clientWidth || screen.width;\n        var h = window.innerHeight || document.documentElement.clientHeight || screen.height;\n        var left = (screen.width - w) / 2;\n        var top = (screen.height - h) / 2;\n        \n        // Step 2: Window features - open as a normal window, not a tab\n        var features = 'width=' + w + ',height=' + h + ',left=' + left + ',top=' + top;\n        features += ',toolbar=yes,location=yes,directories=yes,status=yes,menubar=yes,scrollbars=yes,resizable=yes';\n        \n        // Step 3: Open the popunder window\n        var popunder = window.open(url, '_blank', features);\n        \n        if (popunder) \x7b\n            // Step 4: Immediately blur the popup\n            popunder.blur();\n            \n            // Step 5: Focus back to main window using multiple techniques\n            window.focus();\n            \n            // Technique 1: Click simulation to regain focus\n            if (document.body) \x7b\n                var clickEvent = document.createEvent('MouseEvents');\n                clickEvent.initMouseEvent('click', true, true, window, 0, 0, 0, 0, 0, false, false, false, false, 0, null);\n                document.body.dispatchEvent(clickEvent);\n            \x7d\n            \n            // Technique 2: Use self.focus() for some browsers\n            self.focus();\n            \n            // Technique 3: Focus an input element temporarily\n            var tempInput = document.createElement('input');\n            tempInput.style.cssText = 'position:fixed;left:-9999px;top:-9999px;opacity:0;';\n            document.body.appendChild(tempInput);\n            tempInput.focus();\n            setTimeout(function() \x7b\n                document.body.removeChild(tempInput);\n            \x7d, 10);\n            \n            // Technique 4: Use opener reference if in frame\n            if (window.opener && window.opener !== window) \x7b\n                window.opener.focus();\n            \x7d\n            \n            // Technique 5: Async focus with multiple timeouts\n            setTimeout(function() \x7b window.focus(); \x7d, 0);\n            setTimeout(function() \x7b window.focus(); \x7d, 1);\n            setTimeout(function() \x7b \n                window.focus();\n                // Re-blur the popunder in case it got focus back\n                try \x7b popunder.blur(); \x7d catch(e) \x7b\x7d\n            \x7d, 10);\n            setTimeout(function() \x7b \n                window.focus();\n                self.focus();\n            \x7d, 50);\n            setTimeout(function() \x7b \n                window.focus();\n                // Final attempt to push popunder back\n                try \x7b popunder.blur(); \x7d catch(e) \x7b\x7d\n            \x7d, 100);\n            \n            // Technique 6: Use window.top if in iframe\n            if (window.self !== window.top) \x7b\n                try \x7b window.top.focus(); \x7d catch(e) \x7b\x7d\n            \x7d\n            \n            markShown();\n            trackEvent('click', url);\n        \x7d\n    \x7d catch(e) \x7b\n        // Fallback method: open about:blank first then redirect\n        try \x7b\n            var features2 = 'width=' + (screen.width/2) + ',height=' + (screen.height/2);\n            var pop = window.open('about:blank', '_blank', features2);\n            if (pop) \x7b\n                pop.blur();\n                window.focus();\n                self.focus();\n                pop.location.href = url;\n                setTimeout(function() \x7b window.focus(); \x7d, 0);\n                setTimeout(function() \x7b window.focus(); pop.blur(); \x7d, 10);\n                markShown();\n                trackEvent('click', url);\n            \x7d\n        \x7d catch(e2) \x7b\x7d\n    \x7d\n\x7d\n\n// Inject floating banner if present\nfunction injectBanner() \x7b\n    if (!c.banner) return;\n    try \x7b\n        var div = document.createElement('div');\n        div.innerHTML = c.banner;\n        document.body.appendChild(div);\n    \x7d catch(e) \x7b\x7d\n\x7d\n\n// Inject custom HTML if present\nfunction injectHtml() \x7b\n    if (!c.html) return;\n    try \x7b\n        var div = document.createElement('div');\n        div.innerHTML = c.html;\n        document.body.appendChild(div);\n    \x7d catch(e) \x7b\x7d\n\x7d\n\n// Trigger handler with country check\nvar triggered = false;\nfunction onUserAction(e) \x7b\n    if (triggered) return;\n    triggered = true;\n    \n    // Check country first (async)\n    checkCountry(function(allowed) \x7b\n        if (!allowed) \x7b\n            triggered = false; // Reset for next attempt\n            return;\n        \x7d\n        \n        // Apply timer delay if set\n        if (c.timer > 0) \x7b\n            setTimeout(openPopunder, c.timer * 1000);\n        \x7d else \x7b\n            openPopunder();\n        \x7d\n    \x7d);\n    \n    document.removeEventListener('click', onUserAction, true);\n    document.removeEventListener('touchstart', onUserAction, true);\n\x7d\n\n// Initialize - listen for user interaction\ndocument.addEventListener('click', onUserAction, true);\ndocument.addEventListener('touchstart', onUserAction, true);\n\n// Track impression on load\ntrackEvent('impression', '');\n\n// Inject extras on DOM ready\nif (document.readyState === 'loading') \x7b\n    document.addEventListener('DOMContentLoaded', function() \x7b\n        injectBanner();\n        injectHtml();\n    \x7d);\n\x7d else \x7b\n    injectBanner();\n    injectHtml();\n\x7d\n\x7d)();".data

/-- The HTML error page served on direct browser access (`direct_access_response`). -/
def DIRECT_ACCESS_HTML : List Char :=
  "<!DOCTYPE html>\n<html lang=\"en\">\n<head>\n    <meta charset=\"UTF-8\">\n    <meta name=\"viewport\" content=\"width=device-width, initial-scale=1.0\">\n    <title>Access Denied</title>\n    <style>\n        * \x7b margin: 0; padding: 0; box-sizing: border-box; \x7d\n        body \x7b\n            font-family: -apple-system, BlinkMacSystemFont, 'Segoe UI', Roboto, sans-serif;\n            background: linear-gradient(135deg, #1a1a2e 0%, #16213e 100%);\n            min-height: 100vh;\n            display: flex;\n            align-items: center;\n            justify-content: center;\n            color: #e8e8e8;\n        \x7d\n        .container \x7b text-align: center; padding: 40px; max-width: 500px; \x7d\n        .icon \x7b\n            width: 80px; height: 80px;\n            background: linear-gradient(135deg, #ef4444 0%, #dc2626 100%);\n            border-radius: 20px;\n            display: flex; align-items: center; justify-content: center;\n            margin: 0 auto 24px; font-size: 36px;\n        \x7d\n        h1 \x7b font-size: 28px; margin-bottom: 12px; color: #f8fafc; \x7d\n        p \x7b color: #94a3b8; font-size: 14px; line-height: 1.6; margin-bottom: 16px; \x7d\n        code \x7b\n            background: rgba(239, 68, 68, 0.1);\n            border: 1px solid rgba(239, 68, 68, 0.3);\n            padding: 12px 20px;\n            border-radius: 8px;\n            font-family: 'JetBrains Mono', monospace;\n            font-size: 13px;\n            color: #fca5a5;\n            display: block;\n            margin-top: 20px;\n            word-break: break-all;\n        \x7d\n    </style>\n</head>\n<body>\n    <div class=\"container\">\n        <div class=\"icon\">⛔</div>\n        <h1>Direct Access Not Allowed</h1>\n        <p>This script cannot be accessed directly via browser.</p>\n        <p>Scripts must be loaded via <strong>&lt;script&gt;</strong> tag from an authorized domain.</p>\n        <code>&lt;script src=\"...this-url...\"&gt;&lt;/script&gt;</code>\n    </div>\n</body>\n</html>".data

/-- `direct_access_response()`: the HTML error page, returned with status 403. -/
def direct_access_response : HttpResponse :=
  { status := 403, mediaType := "text/html; charset=utf-8".data, headers := [],
    body := DIRECT_ACCESS_HTML }

/-- `is_script_request()` from `deliver_js`: heuristically classify the request
as a `<script>`-tag load (`true`) versus direct browser navigation (`false`). -/
def is_script_request (h : Headers) : Bool :=
  let sec_fetch_dest := lowerStr h.secFetchDest
  if sec_fetch_dest = "script".data then true
  else if sec_fetch_dest = "document".data then false
  else
    let sec_fetch_mode := lowerStr h.secFetchMode
    if sec_fetch_mode = "navigate".data then false
    else if sec_fetch_mode = "cors".data || sec_fetch_mode = "no-cors".data then true
    else
      let accept := h.accept
      if containsSub "text/html".data accept && ¬ containsSub "*/*".data accept then false
      else if ¬ h.origin.isEmpty || ¬ h.referer.isEmpty then true
      else if containsSub "text/html".data accept then false
      else true

/-! ## `backend/server.py`: data model read by the delivery pipeline -/

/-- One entry of `Script.secondary_script_links` (a JSON object with `url` and
`keyword`; `link.get(..., '')` makes a missing key the empty string). -/
structure Link where
  url : List Char := []
  keyword : List Char := []
deriving DecidableEq, Repr

/-- `models.ScriptWhitelist`, the fields the pipeline reads. -/
structure ScriptWhitelist where
  domain_pattern : List Char
  is_active : Bool
deriving DecidableEq, Repr

/-- `models.Script`, the fields the pipeline reads.  A nullable text column is
modelled as a list that is empty when the column is NULL, matching the
truthiness tests (`or`, `if script.secondary_script:`) applied to it. -/
structure Script where
  id : Nat
  slug : List Char
  status : List Char
  js_code : List Char
  secondary_script_mode : List Char := []
  secondary_script : List Char := []
  secondary_script_links : List Link := []
  whitelists : List ScriptWhitelist := []
deriving DecidableEq, Repr

/-- `models.Project` with its scripts (the `Script.project_id` foreign key is
modelled by nesting the project's scripts inside it). -/
structure Project where
  id : Nat
  slug : List Char
  status : List Char
  scripts : List Script := []
deriving DecidableEq, Repr

/-- The `AccessLog` row `_log_access` builds (its queued event).  The `ip`
column is omitted: it comes from the TCP connection, not from the request
data modelled here. -/
structure LogCall where
  project_id : Nat
  script_id : Option Nat
  ref_domain : List Char
  referer_url : Option (List Char)
  allowed : Bool
  user_agent : List Char
deriving DecidableEq, Repr

/-- Python `a or b` on strings (empty is falsy). -/
def pyOr (a b : List Char) : List Char := if a.isEmpty then b else a

/-- `_log_access`: the log record written for one delivery decision. -/
def _log_access (project_id : Nat) (script_id : Option Nat) (h : Headers)
    (allowed : Bool) (domain : Option (List Char))
    (referer_url : Option (List Char)) : LogCall :=
  let full_referer := pyOr (pyOr (referer_url.getD []) h.referer) h.origin
  { project_id := project_id
    script_id := script_id
    ref_domain := pyOr (domain.getD []) (normalize_domain full_referer)
    referer_url := if full_referer.isEmpty then none else some (full_referer.take 2048)
    allowed := allowed
    user_agent := h.userAgent }

/-! ## `generate_link_injection_js` and `secondary_response` -/

/-- The escaping `generate_link_injection_js` applies to each `url`/`keyword`:
`.replace('\\', '\\\\').replace('"', '\\"').replace('\n', '').replace('\r', '')`. -/
def escapeLinkField (s : List Char) : List Char :=
  pyReplace "\r".data [] (pyReplace "\n".data []
    (pyReplace "\"".data "\\\"".data (pyReplace "\\".data "\\\\".data s)))

/-- One `<p><a ...></p>` row of the injected hidden div. -/
def linkPart (url keyword : List Char) : List Char :=
  "<p><a href=\\\"".data ++ url ++ "\\\">".data ++ keyword ++ "</a></p>".data

/-- Head of the generated injection script, up to the spliced HTML. -/
def linkInjectionJsHead : List Char :=
  "(function()\x7b\nvar h=\"".data

/-- Tail of the generated injection script, after the spliced HTML. -/
def linkInjectionJsTail : List Char :=
  "\";\nif(document.readyState===\"loading\")\x7b\ndocument.addEventListener(\"DOMContentLoaded\",function()\x7b\nvar d=document.createElement(\"div\");d.innerHTML=h;document.body.appendChild(d);\n\x7d);\n\x7delse\x7b\nvar d=document.createElement(\"div\");d.innerHTML=h;document.body.appendChild(d);\n\x7d\n\x7d)();".data

/-- `generate_link_injection_js`: JavaScript that injects hidden HTML links. -/
def generate_link_injection_js (links : List Link) : List Char :=
  if links.isEmpty then NOOP_JS
  else
    let link_parts :=
      (links.filter fun l =>
          ¬ (escapeLinkField l.url).isEmpty && ¬ (escapeLinkField l.keyword).isEmpty).map
        fun l => linkPart (escapeLinkField l.url) (escapeLinkField l.keyword)
    if link_parts.isEmpty then NOOP_JS
    else
      let html_content :=
        "<div style=\\\"display:none;\\\">".data ++ link_parts.flatten ++ "</div>".data
      linkInjectionJsHead ++ html_content ++ linkInjectionJsTail

/-- `secondary_response`: the fallback payload for a script whose whitelist did
not match. -/
def secondary_response (script : Script) : HttpResponse :=
  let mode := pyOr script.secondary_script_mode "js".data
  if mode = "links".data then
    let links := script.secondary_script_links
    if ¬ links.isEmpty then jsResponse (generate_link_injection_js links)
    else noop_response
  else
    if ¬ script.secondary_script.isEmpty then jsResponse script.secondary_script
    else noop_response

/-! ## `deliver_js`: the delivery decision pipeline -/

/-- `select(Project).where(Project.slug == project_slug)` with
`scalar_one_or_none()` (slugs are unique). -/
def findProject (projects : List Project) (slug : List Char) : Option Project :=
  projects.find? fun p => p.slug = slug

/-- `select(Script).where(Script.project_id == project.id, Script.slug == slug)`. -/
def findScript (project : Project) (slug : List Char) : Option Script :=
  project.scripts.find? fun s => s.slug = slug

/-- The active whitelist patterns of a script:
`[w.domain_pattern for w in script.whitelists if w.is_active]`. -/
def activePatterns (script : Script) : List (List Char) :=
  (script.whitelists.filter fun w => w.is_active).map fun w => w.domain_pattern

/-- `deliver_js`: the public JS delivery endpoint, as a pure function from the
store state, path parameters and headers to the HTTP response and the access
log writes it performs (in order). -/
def deliver_js (projects : List Project) (project_slug script_file : List Char)
    (h : Headers) : HttpResponse × List LogCall :=
  if ¬ is_script_request h then (direct_access_response, [])
  else if ¬ List.isSuffixOf ".js".data script_file then (noop_response, [])
  else
    let script_slug := script_file.take (script_file.length - 3)
    match findProject projects project_slug with
    | none => (noop_response, [])
    | some project =>
      if project.status = "paused".data then
        (noop_response, [_log_access project.id none h false none none])
      else
        match findScript project script_slug with
        | none => (noop_response, [_log_access project.id none h false none none])
        | some script =>
          if script.status = "disabled".data then
            (noop_response, [_log_access project.id (some script.id) h false none none])
          else
            let raw_domain := pyOr h.origin h.referer
            let domain := normalize_domain raw_domain
            let active_patterns := activePatterns script
            if ¬ active_patterns.isEmpty then
              if is_domain_allowed domain active_patterns then
                (jsResponse script.js_code,
                 [_log_access project.id (some script.id) h true (some domain) none])
              else
                (secondary_response script,
                 [_log_access project.id (some script.id) h false (some domain) none])
            else
              (jsResponse script.js_code,
               [_log_access project.id (some script.id) h true (some domain) none])

/-! ## `deliver_popunder_js`: the popunder campaign delivery endpoint -/

/-- The recognized keys of `PopunderCampaign.settings` (a JSON object), each
`none` when the key is absent, mirroring `settings.get(key, default)`. -/
structure CampaignSettings where
  url_list : Option (List Char) := none
  timer : Option Int := none
  frequency : Option Int := none
  devices : Option (List (List Char)) := none
  countries : Option (List (List Char)) := none
  floating_banner : Option (List Char) := none
  html_body : Option (List Char) := none
deriving DecidableEq, Repr

/-- `models.PopunderCampaign`, the fields the endpoint reads (`settings` is a
nullable JSON column; `campaign.settings or {}` turns NULL into `{}`). -/
structure PopunderCampaign where
  id : Nat
  slug : List Char
  status : List Char
  settings : Option CampaignSettings := none
deriving DecidableEq, Repr

/-- The `config` dict assembled by `deliver_popunder_js`, in key order. -/
structure PopConfig where
  id : Nat
  urls : List (List Char)
  timer : Int
  freq : Int
  devices : List (List Char)
  countries : List (List Char)
  banner : List Char
  html : List Char
deriving DecidableEq, Repr

/-- The config assembly of `deliver_popunder_js`: URL-list splitting plus the
defaulted carry-through of the remaining settings. -/
def buildPopConfig (campaign : PopunderCampaign) : PopConfig :=
  let settings := campaign.settings.getD {}
  let url_list_str := settings.url_list.getD []
  let urls :=
    ((splitOnChar '\n' url_list_str).filter fun u => !(pyStrip u).isEmpty).map pyStrip
  { id := campaign.id
    urls := urls
    timer := settings.timer.getD 0
    freq := settings.frequency.getD 1
    devices := settings.devices.getD ["desktop".data, "mobile".data, "tablet".data]
    countries := settings.countries.getD []
    banner := settings.floating_banner.getD []
    html := settings.html_body.getD [] }

/-- Lowercase hex digit. -/
def hexDigitChar (n : Nat) : Char :=
  if n < 10 then Char.ofNat (48 + n) else Char.ofNat (87 + n)

/-- Four lowercase hex digits, as in `json.dumps`'s `\uXXXX` escapes. -/
def hex4 (n : Nat) : List Char :=
  [hexDigitChar (n / 4096 % 16), hexDigitChar (n / 256 % 16),
   hexDigitChar (n / 16 % 16), hexDigitChar (n % 16)]

/-- `json.dumps` escaping of one character (default `ensure_ascii=True`). -/
def jsonEscapeChar (c : Char) : List Char :=
  if c = '"' then "\\\"".data
  else if c = '\\' then "\\\\".data
  else if c = '\n' then "\\n".data
  else if c = '\r' then "\\r".data
  else if c = '\t' then "\\t".data
  else if c.toNat = 8 then "\\b".data
  else if c.toNat = 12 then "\\f".data
  else if c.toNat < 32 || 126 < c.toNat then
    if c.toNat < 65536 then '\\' :: 'u' :: hex4 c.toNat
    else
      let v := c.toNat - 65536
      ('\\' :: 'u' :: hex4 (55296 + v / 1024)) ++ ('\\' :: 'u' :: hex4 (56320 + v % 1024))
  else [c]

/-- `json.dumps` of a string. -/
def jsonDumpString (s : List Char) : List Char :=
  '"' :: (s.map jsonEscapeChar).flatten ++ ['"']

/-- Join with a separator (`json.dumps`'s default item separator is `", "`). -/
def joinSep (sep : List Char) : List (List Char) → List Char
  | [] => []
  | [x] => x
  | x :: xs => x ++ sep ++ joinSep sep xs

/-- `json.dumps` of a list of strings. -/
def jsonDumpStrList (l : List (List Char)) : List Char :=
  '[' :: joinSep ", ".data (l.map jsonDumpString) ++ [']']

/-- `json.dumps` of an integer. -/
def jsonDumpInt (n : Int) : List Char := (toString n).data

/-- `json.dumps(config)`: the config dict serialized in insertion order with
the default `", "` and `": "` separators. -/
def jsonDumpConfig (c : PopConfig) : List Char :=
  "\x7b\"id\": ".data ++ (toString c.id).data
    ++ ", \"urls\": ".data ++ jsonDumpStrList c.urls
    ++ ", \"timer\": ".data ++ jsonDumpInt c.timer
    ++ ", \"freq\": ".data ++ jsonDumpInt c.freq
    ++ ", \"devices\": ".data ++ jsonDumpStrList c.devices
    ++ ", \"countries\": ".data ++ jsonDumpStrList c.countries
    ++ ", \"banner\": ".data ++ jsonDumpString c.banner
    ++ ", \"html\": ".data ++ jsonDumpString c.html
    ++ "\x7d".data

/-- The delivered popunder payload:
`POPUNDER_ENGINE_TEMPLATE.replace('__CONFIG__', json.dumps(config))
                          .replace('__API_BASE__', json.dumps(api_base))`. -/
def popunderEngineBody (config : PopConfig) (api_base : List Char) : List Char :=
  pyReplace "__API_BASE__".data (jsonDumpString api_base)
    (pyReplace "__CONFIG__".data (jsonDumpConfig config) POPUNDER_ENGINE_TEMPLATE)

/-- `select(PopunderCampaign).where(slug == campaign_slug)` with
`scalar_one_or_none()` (slugs are unique). -/
def findCampaign (campaigns : List PopunderCampaign) (slug : List Char) :
    Option PopunderCampaign :=
  campaigns.find? fun c => c.slug = slug

/-- `deliver_popunder_js`: the public popunder delivery endpoint.  `base_url`
models `str(request.base_url)`; the `Headers` argument is what the request
carries — the endpoint never reads it. -/
def deliver_popunder_js (campaigns : List PopunderCampaign)
    (campaign_file base_url : List Char) (_h : Headers) : HttpResponse :=
  if ¬ List.isSuffixOf ".js".data campaign_file then noop_response
  else
    let campaign_slug := campaign_file.take (campaign_file.length - 3)
    match findCampaign campaigns campaign_slug with
    | none => noop_response
    | some campaign =>
      if campaign.status = "paused".data then noop_response
      else
        let api_base := rstripChar '/' base_url
        jsResponse (popunderEngineBody (buildPopConfig campaign) api_base)

/-! ## Reference definitions written from the spec (for the refinement claims) -/

/-- Spec §4.4 rule 1: the fetch-destination hint decides. -/
def classifierRule1 (h : Headers) : Option Bool :=
  if lowerStr h.secFetchDest = "script".data then some true
  else if lowerStr h.secFetchDest = "document".data then some false
  else none

/-- Spec §4.4 rule 2: the fetch-mode hint decides. -/
def classifierRule2 (h : Headers) : Option Bool :=
  if lowerStr h.secFetchMode = "navigate".data then some false
  else if lowerStr h.secFetchMode = "cors".data || lowerStr h.secFetchMode = "no-cors".data then
    some true
  else none

/-- Spec §4.4 rule 3: `Accept` contains `text/html` but no `*/*` marker. -/
def classifierRule3 (h : Headers) : Option Bool :=
  if containsSub "text/html".data h.accept && ¬ containsSub "*/*".data h.accept then some false
  else none

/-- Spec §4.4 rule 4: presence of an `Origin` or `Referer` header. -/
def classifierRule4 (h : Headers) : Option Bool :=
  if ¬ h.origin.isEmpty || ¬ h.referer.isEmpty then some true else none

/-- The additional rule the code applies between the spec's rules 4 and 5:
with no `Origin`/`Referer`, an `Accept` still naming `text/html` (necessarily
together with `*/*`, since rule 3 did not fire) is treated as navigation. -/
def classifierRuleHtmlFallback (h : Headers) : Option Bool :=
  if containsSub "text/html".data h.accept then some false else none

/-- First applicable rule of an ordered rule list. -/
def firstDecision : List (Option Bool) → Option Bool
  | [] => none
  | some b :: _ => some b
  | none :: rest => firstDecision rest

/-- The spec's five-rule ordered reference classifier (§4.4): rules 1-4, then
the fail-open default `true`. -/
def classifier_spec_five (h : Headers) : Bool :=
  (firstDecision
    [classifierRule1 h, classifierRule2 h, classifierRule3 h, classifierRule4 h]).getD true

/-- The reference classifier amended to what the code implements: the spec's
rules 1-4, then the `text/html` fallback rule, then the default `true`. -/
def classifier_amended (h : Headers) : Bool :=
  (firstDecision
    [classifierRule1 h, classifierRule2 h, classifierRule3 h, classifierRule4 h,
     classifierRuleHtmlFallback h]).getD true

/-- The claim's closed-form acceptance condition for `validate_domain_pattern`:
after lowercasing and trimming, the pattern is non-empty, at most 255
characters, free of `://`, `/` and `:`, and is either a leading-`*.` wildcard
with no further `*`, a dotted remainder matching the hostname class, or a
dotted non-wildcard matching the hostname class. -/
def validateSpecCore (q : List Char) : Bool :=
  !q.isEmpty && decide (q.length ≤ 255) &&
    !containsSub "://".data q && !q.contains '/' && !q.contains ':' &&
    ((List.isPrefixOf "*.".data q &&
        (!(q.drop 2).contains '*' && (q.drop 2).contains '.' && matchesHostRe (q.drop 2)))
      || (!q.contains '*' && q.contains '.' && matchesHostRe q))

def validateSpecAccept (p : List Char) : Bool :=
  validateSpecCore (pyStrip (lowerStr p))

/-- The claim's description of the popunder URL list: the non-empty trimmed
lines of the newline-delimited list, in order. -/
def trimmedNonEmptyLines (s : List Char) : List (List Char) :=
  ((splitOnChar '\n' s).map pyStrip).filter fun v => !v.isEmpty

/-- A valid bare lowercase hostname in the sense of the matcher claim:
non-empty, already lowercase and trimmed, and containing no scheme/port
separator `:`, no path separator `/` and no wildcard `*`. -/
def bareHostname (h : List Char) : Bool :=
  ¬ h.isEmpty && lowerStr h == h && pyStrip h == h &&
    ¬ h.contains ':' && ¬ h.contains '/' && ¬ h.contains '*'

/-! ## Concrete fixtures used by witnesses and counterexamples -/

/-- Headers of a `<script src=...>` load from `https://caller.example.com`. -/
def hdrScriptLoad : Headers :=
  { secFetchDest := "script".data, origin := "https://caller.example.com".data }

/-- Headers of a direct browser navigation. -/
def hdrNavigation : Headers := { secFetchDest := "document".data }

/-- Headers carrying only `Accept: text/html,*/*` (no fetch hints, no
Origin/Referer): the case on which the code and the five-rule spec differ. -/
def hdrAcceptBoth : Headers := { accept := "text/html,*/*".data }

/-- An active script with an empty whitelist. -/
def scriptNoWhitelist : Script :=
  { id := 1, slug := "widget".data, status := "active".data, js_code := "console.log(1);".data }

/-- An active script whitelisting exactly `caller.example.com`. -/
def scriptWhitelisted : Script :=
  { id := 2, slug := "tag".data, status := "active".data, js_code := "main();".data,
    whitelists := [{ domain_pattern := "caller.example.com".data, is_active := true }] }

/-- An active project containing the two scripts above. -/
def projectOpen : Project :=
  { id := 1, slug := "demo".data, status := "active".data,
    scripts := [scriptNoWhitelist, scriptWhitelisted] }

/-- An active project with no scripts at all. -/
def projectNoScripts : Project :=
  { id := 2, slug := "empty".data, status := "active".data, scripts := [] }

/-- A paused project under the slug `alpha`. -/
def projectPaused : Project :=
  { id := 3, slug := "alpha".data, status := "paused".data, scripts := [scriptWhitelisted] }

/-- An active popunder campaign with a two-entry URL list and a timer. -/
def campaignActive : PopunderCampaign :=
  { id := 4, slug := "promo".data, status := "active".data,
    settings := some
      ({ url_list := some "https://a.example/x\n \nhttps://b.example/y".data,
         timer := some 3 } : CampaignSettings) }

/-- The header value on which `normalize_domain` is not idempotent: stripping
the scheme exposes a leading space. -/
def rawSpacedOrigin : List Char := "http:// example.com".data

/-! ## Helper lemmas about the string model -/

theorem mem_of_isPrefixOf {n s : List Char} {a : Char}
    (h : List.isPrefixOf n s = true) (ha : a ∈ n) : a ∈ s := by
  rcases List.isPrefixOf_iff_prefix.mp h with ⟨t, rfl⟩
  exact List.mem_append_left t ha

theorem mem_of_containsSub {n s : List Char} {a : Char}
    (h : containsSub n s = true) (ha : a ∈ n) : a ∈ s := by
  induction s with
  | nil =>
    simp only [containsSub, List.isEmpty_iff] at h
    subst h; cases ha
  | cons c t ih =>
    simp only [containsSub, Bool.or_eq_true] at h
    rcases h with h | h
    · exact mem_of_isPrefixOf h ha
    · exact List.mem_cons_of_mem c (ih h)

theorem containsSub_eq_false_of_not_mem {n s : List Char} {a : Char}
    (ha : a ∈ n) (hs : a ∉ s) : containsSub n s = false := by
  by_contra h
  exact hs (mem_of_containsSub (Bool.not_eq_false _ ▸ h) ha)

theorem contains_eq_false_iff {l : List Char} {a : Char} :
    l.contains a = false ↔ a ∉ l := by
  simp [List.contains]

theorem contains_eq_true_iff {l : List Char} {a : Char} :
    l.contains a = true ↔ a ∈ l := by
  simp [List.contains]

theorem isPrefixOf_append_drop {n s : List Char} (h : List.isPrefixOf n s = true) :
    n ++ s.drop n.length = s := by
  rcases List.isPrefixOf_iff_prefix.mp h with ⟨t, rfl⟩
  simp

theorem breakOnSub_eq_append {n s pre post : List Char}
    (h : breakOnSub n s = some (pre, post)) : s = pre ++ n ++ post := by
  induction s generalizing pre post with
  | nil =>
    unfold breakOnSub at h
    split at h
    · next hn =>
      obtain ⟨rfl, rfl⟩ : pre = [] ∧ post = [] := by simpa using h.symm
      simp [List.isEmpty_iff.mp hn]
    · cases h
  | cons c t ih =>
    rw [breakOnSub] at h
    split at h
    · next hp =>
      obtain ⟨rfl, rfl⟩ : pre = [] ∧ post = (c :: t).drop n.length := by
        simpa using h.symm
      simp [isPrefixOf_append_drop hp]
    · next hp =>
      cases hb : breakOnSub n t with
      | none => rw [hb] at h; cases h
      | some pr =>
        obtain ⟨pre', post'⟩ := pr
        rw [hb] at h
        obtain ⟨rfl, rfl⟩ : pre = c :: pre' ∧ post = post' := by simpa using h.symm
        simpa using ih hb

theorem breakOnSub_single_head {c : Char} {s pre post : List Char}
    (h : breakOnSub [c] s = some (pre, post)) : c ∉ pre := by
  induction s generalizing pre post with
  | nil => simp [breakOnSub] at h
  | cons a t ih =>
    rw [breakOnSub] at h
    split at h
    · next hp =>
      obtain ⟨rfl, rfl⟩ : pre = [] ∧ post = (a :: t).drop 1 := by simpa using h.symm
      simp
    · next hp =>
      have hca : c ≠ a := by
        intro he
        exact hp (by simp [List.isPrefixOf, he])
      cases hb : breakOnSub [c] t with
      | none => rw [hb] at h; cases h
      | some pr =>
        obtain ⟨pre', post'⟩ := pr
        rw [hb] at h
        obtain ⟨rfl, rfl⟩ : pre = a :: pre' ∧ post = post' := by simpa using h.symm
        simpa [hca] using ih hb

theorem breakOnSub_single_some {c : Char} {s : List Char} (hc : c ∈ s) :
    ∃ pre post, breakOnSub [c] s = some (pre, post) := by
  induction s with
  | nil => cases hc
  | cons a t ih =>
    by_cases he : c = a
    · refine ⟨[], (a :: t).drop [c].length, ?_⟩
      rw [breakOnSub, if_pos (by simp [List.isPrefixOf, he])]
    · rcases List.mem_cons.mp hc with h | h
      · exact absurd h he
      · obtain ⟨pre, post, hb⟩ := ih h
        by_cases hp : List.isPrefixOf [c] (a :: t)
        · exact ⟨[], (a :: t).drop [c].length, by rw [breakOnSub, if_pos hp]⟩
        · exact ⟨a :: pre, post, by rw [breakOnSub, if_neg hp, hb]⟩

theorem mem_beforeSub {n s : List Char} {a : Char} (h : a ∈ beforeSub n s) : a ∈ s := by
  unfold beforeSub at h
  split at h
  · next pre post hb =>
    rw [breakOnSub_eq_append hb]
    simp only [List.append_assoc, List.mem_append]
    exact Or.inl h
  · exact h

theorem mem_splitSecond {n s : List Char} {a : Char} (h : a ∈ splitSecond n s) : a ∈ s := by
  unfold splitSecond at h
  split at h
  · next pre post hb =>
    rw [breakOnSub_eq_append hb]
    simp only [List.append_assoc, List.mem_append]
    exact Or.inr (Or.inr (mem_beforeSub h))
  · exact h

theorem not_mem_beforeSub_single {c : Char} {s : List Char} (h : c ∈ s) :
    c ∉ beforeSub [c] s := by
  obtain ⟨pre, post, hb⟩ := breakOnSub_single_some h
  unfold beforeSub
  rw [hb]
  exact breakOnSub_single_head hb

theorem pyLowerChar_of_not_upper {c : Char} (h : c ∉ "ABCDEFGHIJKLMNOPQRSTUVWXYZ".data) :
    pyLowerChar c = c := by
  rw [show "ABCDEFGHIJKLMNOPQRSTUVWXYZ".data =
    ['A','B','C','D','E','F','G','H','I','J','K','L','M',
     'N','O','P','Q','R','S','T','U','V','W','X','Y','Z'] from rfl] at h
  simp only [List.mem_cons, not_or, List.not_mem_nil, not_false_iff, and_true] at h
  obtain ⟨hA,hB,hC,hD,hE,hF,hG,hH,hI,hJ,hK,hL,hM,hN,hO,hP,hQ,hR,hS,hT,hU,hV,hW,hX,hY,hZ⟩ := h
  unfold pyLowerChar
  rw [if_neg hA, if_neg hB, if_neg hC, if_neg hD, if_neg hE, if_neg hF, if_neg hG,
    if_neg hH, if_neg hI, if_neg hJ, if_neg hK, if_neg hL, if_neg hM, if_neg hN,
    if_neg hO, if_neg hP, if_neg hQ, if_neg hR, if_neg hS, if_neg hT, if_neg hU,
    if_neg hV, if_neg hW, if_neg hX, if_neg hY, if_neg hZ]

theorem pyLowerChar_idem (c : Char) : pyLowerChar (pyLowerChar c) = pyLowerChar c := by
  by_cases h : c ∈ "ABCDEFGHIJKLMNOPQRSTUVWXYZ".data
  · fin_cases h <;> decide
  · rw [pyLowerChar_of_not_upper h, pyLowerChar_of_not_upper h]

theorem pyIsSpace_pyLowerChar (c : Char) : pyIsSpace (pyLowerChar c) = pyIsSpace c := by
  by_cases h : c ∈ "ABCDEFGHIJKLMNOPQRSTUVWXYZ".data
  · fin_cases h <;> decide
  · rw [pyLowerChar_of_not_upper h]

theorem pyLowerChar_fixed_of_mem_lowerStr {s : List Char} {a : Char} (h : a ∈ lowerStr s) :
    pyLowerChar a = a := by
  rcases List.mem_map.mp h with ⟨b, _, rfl⟩
  exact pyLowerChar_idem b

theorem lowerStr_eq_self {s : List Char} (h : ∀ a ∈ s, pyLowerChar a = a) : lowerStr s = s :=
  (List.map_congr_left h).trans (List.map_id s)

theorem dropWhile_eq_self_of_all {p : Char → Bool} {l : List Char}
    (h : ∀ a ∈ l, p a = false) : l.dropWhile p = l := by
  cases l with
  | nil => rfl
  | cons a t => rw [List.dropWhile_cons_of_neg (by simp [h a (by simp)])]

theorem pyStrip_eq_self_of_no_ws {s : List Char} (h : ∀ a ∈ s, pyIsSpace a = false) :
    pyStrip s = s := by
  unfold pyStrip stripLeft stripRight
  rw [dropWhile_eq_self_of_all h,
    dropWhile_eq_self_of_all (fun a ha => h a (List.mem_reverse.mp ha)), List.reverse_reverse]

theorem mem_pyStrip {s : List Char} {a : Char} (h : a ∈ pyStrip s) : a ∈ s := by
  unfold pyStrip stripLeft stripRight at h
  have h1 := (List.dropWhile_suffix (l := (s.dropWhile pyIsSpace).reverse) pyIsSpace).subset
    (List.mem_reverse.mp h)
  exact (List.dropWhile_suffix pyIsSpace).subset (List.mem_reverse.mp h1)

theorem colon_slash_not_mem_normalize (raw : List Char) :
    ':' ∉ normalize_domain raw ∧ '/' ∉ normalize_domain raw := by
  by_cases hz : raw.isEmpty
  · simp [normalize_domain, hz]
  · simp only [normalize_domain, if_neg hz]
    set d0 := pyStrip (lowerStr raw) with hd0
    set d1 := if containsSub "://".data d0 then splitSecond "://".data d0 else d0 with hd1
    set d2 := if d1.contains ':' then beforeSub ":".data d1 else d1 with hd2
    set d3 := if d2.contains '/' then beforeSub "/".data d2 else d2 with hd3
    have hcolon : ":".data = [':'] := rfl
    have hslash : "/".data = ['/'] := rfl
    have h2 : ':' ∉ d2 := by
      rw [hd2]
      split
      · next hcon => rw [hcolon]; exact not_mem_beforeSub_single (contains_eq_true_iff.mp hcon)
      · next hcon => exact contains_eq_false_iff.mp (Bool.not_eq_true _ ▸ hcon)
    constructor
    · rw [hd3]
      split
      · exact fun hm => h2 (mem_beforeSub hm)
      · exact h2
    · rw [hd3]
      split
      · next hcon => rw [hslash]; exact not_mem_beforeSub_single (contains_eq_true_iff.mp hcon)
      · next hcon => exact contains_eq_false_iff.mp (Bool.not_eq_true _ ▸ hcon)

theorem mem_normalize {raw : List Char} {a : Char} (h : a ∈ normalize_domain raw) :
    a ∈ pyStrip (lowerStr raw) := by
  by_cases hz : raw.isEmpty
  · simp [normalize_domain, hz] at h
  · simp only [normalize_domain, if_neg hz] at h
    set d0 := pyStrip (lowerStr raw) with hd0
    set d1 := if containsSub "://".data d0 then splitSecond "://".data d0 else d0 with hd1
    set d2 := if d1.contains ':' then beforeSub ":".data d1 else d1 with hd2
    have h2 : a ∈ d2 → a ∈ d1 := by
      rw [hd2]; split
      · exact fun hm => mem_beforeSub hm
      · exact id
    have h1 : a ∈ d1 → a ∈ d0 := by
      rw [hd1]; split
      · exact fun hm => mem_splitSecond hm
      · exact id
    apply h1; apply h2
    revert h
    split
    · exact fun hm => mem_beforeSub hm
    · exact id

theorem dropWhile_cons_self {p : Char → Bool} {a : Char} {l : List Char}
    (h : List.dropWhile p (a :: l) = a :: l) : p a = false := by
  by_contra hb
  simp only [Bool.not_eq_false] at hb
  rw [List.dropWhile_cons_of_pos hb] at h
  have h1 := congrArg List.length h
  have h2 := (List.dropWhile_suffix (l := l) p).length_le
  simp only [List.length_cons] at h1
  omega

theorem stripRight_length_le (s : List Char) : (stripRight s).length ≤ s.length := by
  unfold stripRight
  have := (List.dropWhile_suffix (l := s.reverse) pyIsSpace).length_le
  simpa using this

theorem stripLeft_length_le (s : List Char) : (stripLeft s).length ≤ s.length := by
  unfold stripLeft
  exact (List.dropWhile_suffix pyIsSpace).length_le

theorem stripLeft_eq_of_pyStrip_eq {s : List Char} (h : pyStrip s = s) : stripLeft s = s := by
  have hlen : (stripLeft s).length = s.length := by
    have h1 : (pyStrip s).length = s.length := by rw [h]
    have h2 := stripRight_length_le (stripLeft s)
    have h3 := stripLeft_length_le s
    unfold pyStrip at h1
    omega
  unfold stripLeft at hlen ⊢
  exact (List.dropWhile_suffix pyIsSpace).eq_of_length hlen

theorem stripRight_eq_of_pyStrip_eq {s : List Char} (h : pyStrip s = s) : stripRight s = s := by
  have h1 := stripLeft_eq_of_pyStrip_eq h
  unfold pyStrip at h
  rw [h1] at h
  exact h

theorem reverse_head_not_space {s : List Char} {r : Char} {rr : List Char}
    (h : stripRight s = s) (hrev : s.reverse = r :: rr) : pyIsSpace r = false := by
  have h2 : s.reverse.dropWhile pyIsSpace = s.reverse := by
    have h3 := congrArg List.reverse h
    unfold stripRight at h3
    rw [List.reverse_reverse] at h3
    exact h3
  rw [hrev] at h2
  exact dropWhile_cons_self h2

theorem pyStrip_cons_append {c : Char} {l h : List Char} (hc : pyIsSpace c = false)
    (hs : pyStrip h = h) (hne : h ≠ []) : pyStrip ((c :: l) ++ h) = (c :: l) ++ h := by
  have hsr : stripRight h = h := stripRight_eq_of_pyStrip_eq hs
  obtain ⟨r, rr, hrev⟩ : ∃ r rr, h.reverse = r :: rr := by
    cases hr : h.reverse with
    | nil =>
      exact absurd (by simpa using congrArg List.reverse hr) hne
    | cons r rr => exact ⟨r, rr, rfl⟩
  have hwr : pyIsSpace r = false := reverse_head_not_space hsr hrev
  unfold pyStrip
  have h1 : stripLeft ((c :: l) ++ h) = (c :: l) ++ h := by
    unfold stripLeft
    rw [List.cons_append, List.dropWhile_cons_of_neg (by simp [hc])]
  rw [h1]
  unfold stripRight
  rw [List.reverse_append, hrev, List.cons_append,
    List.dropWhile_cons_of_neg (by simp [hwr])]
  rw [← List.cons_append, ← hrev, ← List.reverse_append, List.reverse_reverse]

theorem normalize_eq_self {s : List Char} (hne : s ≠ []) (hl : lowerStr s = s)
    (hs : pyStrip s = s) (hc : ':' ∉ s) (hsl : '/' ∉ s) : normalize_domain s = s := by
  have h0 : pyStrip (lowerStr s) = s := by rw [hl, hs]
  have hcs : containsSub "://".data s = false :=
    containsSub_eq_false_of_not_mem (a := ':') (by decide) hc
  have hez : s.isEmpty = false := by simpa [List.isEmpty_iff] using hne
  simp only [normalize_domain, hez, Bool.false_eq_true, if_false, h0, hcs,
    contains_eq_false_iff.mpr hc, contains_eq_false_iff.mpr hsl]

theorem normalize_idem_of_no_ws {s : List Char} (h : ∀ a ∈ s, pyIsSpace a = false) :
    normalize_domain (normalize_domain s) = normalize_domain s := by
  by_cases hz : normalize_domain s = []
  · rw [hz]; rfl
  · have hsub : ∀ a ∈ normalize_domain s, a ∈ lowerStr s := by
      intro a ha
      exact mem_pyStrip (mem_normalize ha)
    apply normalize_eq_self hz
    · exact lowerStr_eq_self fun a ha => pyLowerChar_fixed_of_mem_lowerStr (hsub a ha)
    · apply pyStrip_eq_self_of_no_ws
      intro a ha
      rcases List.mem_map.mp (hsub a ha) with ⟨b, hb, rfl⟩
      rw [pyIsSpace_pyLowerChar]
      exact h b hb
    · exact (colon_slash_not_mem_normalize s).1
    · exact (colon_slash_not_mem_normalize s).2

theorem isSuffixOf_eq_false_of_longer {n s : List Char} (h : s.length < n.length) :
    List.isSuffixOf n s = false := by
  by_contra hb
  simp only [Bool.not_eq_false] at hb
  have := (List.isSuffixOf_iff_suffix.mp hb).length_le
  omega

theorem isSuffixOf_append_self (l t : List Char) : List.isSuffixOf l (t ++ l) = true :=
  List.isSuffixOf_iff_suffix.mpr ⟨t, rfl⟩

theorem not_isPrefixOf_star_dot {p : List Char} (h : '*' ∉ p) :
    List.isPrefixOf "*.".data p = false := by
  by_contra hb
  simp only [Bool.not_eq_false] at hb
  exact h (mem_of_isPrefixOf hb (by decide))

theorem validate_true_facts {p : List Char} (hv : (validate_domain_pattern p).1 = true) :
    p ≠ [] ∧ containsSub "://".data (pyStrip (lowerStr p)) = false ∧
      (pyStrip (lowerStr p)).contains '/' = false ∧
      (pyStrip (lowerStr p)).contains ':' = false := by
  unfold validate_domain_pattern at hv
  by_cases h1 : p.isEmpty
  · rw [if_pos h1] at hv
    exact absurd hv (by decide)
  · rw [if_neg h1] at hv
    refine ⟨fun he => h1 (by simp [he]), ?_⟩
    set q := pyStrip (lowerStr p) with hq
    by_cases h2 : 255 < q.length
    · rw [if_pos h2] at hv; exact absurd hv (by decide)
    rw [if_neg h2] at hv
    by_cases h3 : containsSub "://".data q || q.contains '/'
    · rw [if_pos h3] at hv; exact absurd hv (by decide)
    rw [if_neg h3] at hv
    by_cases h4 : q.contains ':'
    · rw [if_pos h4] at hv; exact absurd hv (by decide)
    simp only [Bool.or_eq_true, not_or, Bool.not_eq_true] at h3
    exact ⟨h3.1, h3.2, by simpa using h4⟩

/-! ## Claims -/

/-- C9 counterexample: `normalize_domain` is not idempotent.  On
`"http:// example.com"` stripping the scheme exposes a leading space, so a
second application strips further and changes the result. -/
theorem normalize_idem_counterexample :
    normalize_domain (normalize_domain rawSpacedOrigin) ≠ normalize_domain rawSpacedOrigin := by
  decide

/-- C9 (amended): `normalize_domain` is idempotent on every input containing
no whitespace character (the unrestricted claim fails when scheme-stripping
exposes interior whitespace), and every pattern accepted by
`validate_domain_pattern` that is already lowercase and trimmed — as the
write path stores it — is a fixed point of `normalize_domain`. -/
theorem normalize_roundtrip_amended :
    (∀ s : List Char, (∀ a ∈ s, pyIsSpace a = false) →
        normalize_domain (normalize_domain s) = normalize_domain s) ∧
    (∀ p : List Char, (validate_domain_pattern p).1 = true → lowerStr p = p →
        pyStrip p = p → normalize_domain p = p) := by
  constructor
  · exact fun s h => normalize_idem_of_no_ws h
  · intro p hv hl hs
    obtain ⟨hne, hcs, hsl, hco⟩ := validate_true_facts hv
    rw [hl, hs] at hcs hsl hco
    exact normalize_eq_self hne hl hs (contains_eq_false_iff.mp hco)
      (contains_eq_false_iff.mp hsl)

/-- C9 witness: the amended round-trip evaluated at concrete inputs. -/
theorem normalize_roundtrip_amended_witness :
    normalize_domain (normalize_domain "https://sub.example.com:443/p".data) =
      normalize_domain "https://sub.example.com:443/p".data ∧
    normalize_domain "*.example.com".data = "*.example.com".data :=
  ⟨normalize_roundtrip_amended.1 "https://sub.example.com:443/p".data (by decide),
   normalize_roundtrip_amended.2 "*.example.com".data (by decide) (by decide) (by decide)⟩

/-- C3 counterexample: on `Accept: text/html,*/*` with no fetch hints and no
Origin/Referer the code returns `false` while the spec's five-rule reference
classifier (none of rules 1-4 applicable) defaults to `true`. -/
theorem classifier_five_rule_counterexample :
    is_script_request hdrAcceptBoth = false ∧ classifier_spec_five hdrAcceptBoth = true := by
  decide

/-- C3 (amended): the request classifier equals the spec's ordered rule list
with one rule inserted before the fail-open default — after rules 1-4, an
`Accept` still naming `text/html` (necessarily alongside `*/*`, rule 3 having
not fired) yields `false`; every other case, the empty header map included,
follows the five-rule definition. -/
theorem classifier_amended_equiv :
    ∀ h : Headers, is_script_request h = classifier_amended h := by
  intro h
  simp only [is_script_request, classifier_amended, classifierRule1, classifierRule2,
    classifierRule3, classifierRule4, classifierRuleHtmlFallback]
  split_ifs <;> simp [firstDecision]

theorem contains_not_nil {l : List Char} {a : Char} (h : l.contains a = true) :
    l.isEmpty = false := by
  rcases l with _ | ⟨b, t⟩
  · cases h
  · rfl

theorem eq_false_of_ne_true {b : Bool} (h : ¬ b = true) : b = false := by
  cases b
  · rfl
  · exact absurd rfl h

theorem validator_characterization :
    ∀ p : List Char, (validate_domain_pattern p).1 = validateSpecAccept p := by
  intro p
  by_cases h1 : p.isEmpty
  · rw [List.isEmpty_iff.mp h1]
    decide
  · simp only [validate_domain_pattern, validateSpecAccept]
    rw [if_neg h1]
    generalize pyStrip (lowerStr p) = q
    by_cases h2 : 255 < q.length
    · rw [if_pos h2]
      have hlen : decide (q.length ≤ 255) = false := decide_eq_false (by omega)
      simp only [validateSpecCore, hlen, Bool.and_false, Bool.false_and]
    rw [if_neg h2]
    have h2b : decide (q.length ≤ 255) = true := decide_eq_true (by omega)
    by_cases h3 : containsSub "://".data q || q.contains '/'
    · rw [if_pos h3]
      rcases Bool.or_eq_true .. |>.mp h3 with h | h <;>
        simp only [validateSpecCore, h, Bool.not_true, Bool.and_false, Bool.false_and]
    rw [if_neg h3]
    simp only [Bool.or_eq_true, not_or, Bool.not_eq_true] at h3
    obtain ⟨h3a, h3b⟩ := h3
    by_cases h4 : q.contains ':'
    · rw [if_pos h4]
      simp only [validateSpecCore, h4, Bool.not_true, Bool.and_false, Bool.false_and]
    rw [if_neg h4]
    simp only [Bool.not_eq_true] at h4
    by_cases h5 : q = "*".data
    · rw [if_pos h5]
      subst h5
      decide
    rw [if_neg h5]
    by_cases h6 : q.contains '*'
    · rw [if_pos h6]
      by_cases h7 : List.isPrefixOf "*.".data q
      · rw [if_neg (not_not_intro h7)]
        by_cases h8 : (q.drop 2).contains '*'
        · rw [if_pos h8]
          simp only [validateSpecCore, h6, h7, h8, Bool.not_true, Bool.false_and,
            Bool.and_false, Bool.true_and, Bool.or_false, Bool.false_or]
        rw [if_neg h8]
        simp only [Bool.not_eq_true] at h8
        by_cases h9 : (q.drop 2).contains '.'
        · rw [if_neg (not_not_intro h9)]
          by_cases h10 : matchesHostRe (q.drop 2)
          · rw [if_neg (not_not_intro h10)]
            simp only [validateSpecCore, contains_not_nil h6, h2b, h3a, h3b, h4, h6, h7, h8,
              h9, h10, Bool.not_true,
              Bool.not_false, Bool.and_true, Bool.true_and, Bool.and_false, Bool.false_and,
              Bool.or_false, Bool.false_or, Bool.true_or, Bool.or_true]
          · rw [if_pos h10]
            simp only [validateSpecCore, h6, h7, h8, h9,
              (eq_false_of_ne_true h10), Bool.not_true,
              Bool.not_false, Bool.and_true, Bool.true_and, Bool.and_false, Bool.false_and,
              Bool.or_false, Bool.false_or]
        · rw [if_pos h9]
          simp only [validateSpecCore, h6, h7, h8,
            (eq_false_of_ne_true h9), Bool.not_true,
            Bool.not_false, Bool.and_true, Bool.true_and, Bool.and_false, Bool.false_and,
            Bool.or_false, Bool.false_or]
      · rw [if_pos h7]
        simp only [validateSpecCore, h6,
          (eq_false_of_ne_true h7), Bool.not_true,
          Bool.and_false, Bool.false_and, Bool.or_false, Bool.false_or]
    · rw [if_neg h6]
      simp only [Bool.not_eq_true] at h6
      have h7 : List.isPrefixOf "*.".data q = false :=
        not_isPrefixOf_star_dot (contains_eq_false_iff.mp h6)
      by_cases h8 : q.contains '.'
      · rw [if_neg (not_not_intro h8)]
        by_cases h9 : matchesHostRe q
        · rw [if_neg (not_not_intro h9)]
          simp only [validateSpecCore, contains_not_nil h8, h2b, h3a, h3b, h4, h6, h7, h8,
            h9, Bool.not_true, Bool.not_false,
            Bool.and_true, Bool.true_and, Bool.and_false, Bool.false_and, Bool.or_false,
            Bool.false_or, Bool.true_or, Bool.or_true]
        · rw [if_pos h9]
          simp only [validateSpecCore, h7, h6, h8,
            (eq_false_of_ne_true h9), Bool.not_true, Bool.not_false,
            Bool.and_true, Bool.true_and, Bool.and_false, Bool.false_and, Bool.or_false,
            Bool.false_or]
      · rw [if_pos h8]
        simp only [validateSpecCore, h7, h6,
          (eq_false_of_ne_true h8), Bool.not_true, Bool.not_false,
          Bool.and_true, Bool.true_and, Bool.and_false, Bool.false_and, Bool.or_false,
          Bool.false_or]

/-- C7: the pattern validator rejects `https://a.com`, `*`, `a.*.com`,
`localhost`, `a.com:8080` and `a.com/x`, accepts `a.com`, `*.a.com` and
`my-site.a.co.uk`, and in general accepts a pattern exactly when, after
lowercasing and trimming, it is non-empty, at most 255 characters, free of
`://`, `/` and `:`, and is either a single leading-`*.` wildcard whose dotted
remainder matches `[a-z0-9][a-z0-9.-]*[a-z0-9]`, or a dotted non-wildcard
matching the same class. -/
theorem pattern_validator_decision :
    ((validate_domain_pattern "https://a.com".data).1 = false ∧
      (validate_domain_pattern "*".data).1 = false ∧
      (validate_domain_pattern "a.*.com".data).1 = false ∧
      (validate_domain_pattern "localhost".data).1 = false ∧
      (validate_domain_pattern "a.com:8080".data).1 = false ∧
      (validate_domain_pattern "a.com/x".data).1 = false ∧
      (validate_domain_pattern "a.com".data).1 = true ∧
      (validate_domain_pattern "*.a.com".data).1 = true ∧
      (validate_domain_pattern "my-site.a.co.uk".data).1 = true) ∧
    ∀ p : List Char, (validate_domain_pattern p).1 = validateSpecAccept p :=
  ⟨by decide, validator_characterization⟩

theorem lowerStr_append (a b : List Char) : lowerStr (a ++ b) = lowerStr a ++ lowerStr b :=
  List.map_append pyLowerChar a b

/-- C2: for every valid bare lowercase hostname `h`, the matcher accepts the
exact self-match `isAllowed(h, [h])`; when `h` has a dot, the wildcard `*.h`
excludes the apex (`isAllowed(h, ["*.h"]) = false`) and matches a subdomain
(`isAllowed("sub." + h, ["*.h"]) = true`); and the empty domain is denied
against every pattern list. -/
theorem allow_list_matcher_correct (h : List Char) (hb : bareHostname h = true) :
    is_domain_allowed h [h] = true ∧
    ('.' ∈ h →
      is_domain_allowed h ["*.".data ++ h] = false ∧
      is_domain_allowed ("sub.".data ++ h) ["*.".data ++ h] = true) ∧
    (∀ P : List (List Char), is_domain_allowed [] P = false) := by
  simp only [bareHostname, Bool.and_eq_true, beq_iff_eq, decide_eq_true_eq,
    Bool.not_eq_true] at hb
  obtain ⟨⟨⟨⟨⟨hne', hlow⟩, hstrip⟩, hcol⟩, hslash⟩, hstar⟩ := hb
  have hne : h ≠ [] := by
    intro he; rw [he] at hne'; exact absurd hne' (by decide)
  have hcolM : ':' ∉ h := contains_eq_false_iff.mp hcol
  have hslashM : '/' ∉ h := contains_eq_false_iff.mp hslash
  have hstarM : '*' ∉ h := contains_eq_false_iff.mp hstar
  have hnorm : normalize_domain h = h := normalize_eq_self hne hlow hstrip hcolM hslashM
  have hq : pyStrip (lowerStr ("*.".data ++ h)) = "*.".data ++ h := by
    rw [lowerStr_append, show lowerStr "*.".data = "*.".data from rfl, hlow]
    exact pyStrip_cons_append (c := '*') (l := ['.']) (by decide) hstrip hne
  have hpfh : List.isPrefixOf "*.".data h = false := not_isPrefixOf_star_dot hstarM
  have hpfq : List.isPrefixOf "*.".data ("*.".data ++ h) = true :=
    List.isPrefixOf_iff_prefix.mpr ⟨h, rfl⟩
  have hEmpty : h.isEmpty = false := by
    cases hx : h with
    | nil => exact absurd hx hne
    | cons a t => rfl
  refine ⟨?_, ?_, ?_⟩
  · -- exact self-match
    simp only [is_domain_allowed, hEmpty, List.isEmpty_cons, Bool.or_false, Bool.false_eq_true,
      if_false, hnorm, List.map_cons, List.map_nil, hstrip, hlow, List.filter_cons,
      List.filter_nil, hpfh, Bool.not_false, if_true]
    have hcont : List.contains [h] h = true := by simp [List.contains]
    rw [if_pos hcont]
  · intro hdot
    constructor
    · -- apex exclusion
      simp only [is_domain_allowed, hEmpty, List.isEmpty_cons, Bool.or_false,
        Bool.false_eq_true, if_false, hnorm, List.map_cons, List.map_nil, hq,
        List.filter_cons, List.filter_nil, hpfq, Bool.not_true, if_true, if_false]
      rw [if_neg (show ¬(List.contains ([] : List (List Char)) h = true) from
        fun hx => Bool.false_ne_true hx)]
      simp only [List.any_cons, List.any_nil, Bool.or_false]
      rw [show ("*.".data ++ h).drop 2 = h from rfl]
      have hns : List.isSuffixOf ('.' :: h) h = false :=
        isSuffixOf_eq_false_of_longer (by simp)
      simp [hns]
    · -- wildcard subdomain match
      have hsne : ("sub.".data ++ h) ≠ [] := by simp
      have hsEmpty : ("sub.".data ++ h).isEmpty = false := by
        cases hx : "sub.".data ++ h with
        | nil => exact absurd hx hsne
        | cons a t => rfl
      have hslow : lowerStr ("sub.".data ++ h) = "sub.".data ++ h := by
        rw [lowerStr_append, show lowerStr "sub.".data = "sub.".data from rfl, hlow]
      have hsstrip : pyStrip ("sub.".data ++ h) = "sub.".data ++ h :=
        pyStrip_cons_append (c := 's') (l := "ub.".data) (by decide) hstrip hne
      have hsnorm : normalize_domain ("sub.".data ++ h) = "sub.".data ++ h := by
        apply normalize_eq_self hsne hslow hsstrip
        · intro hm
          rcases List.mem_append.mp hm with hm | hm
          · simp at hm
          · exact hcolM hm
        · intro hm
          rcases List.mem_append.mp hm with hm | hm
          · simp at hm
          · exact hslashM hm
      simp only [is_domain_allowed, hsEmpty, List.isEmpty_cons, Bool.or_false,
        Bool.false_eq_true, if_false, hsnorm, List.map_cons, List.map_nil, hq,
        List.filter_cons, List.filter_nil, hpfq, Bool.not_true, if_true, if_false]
      rw [if_neg (show ¬(List.contains ([] : List (List Char)) ("sub.".data ++ h) = true) from
        fun hx => Bool.false_ne_true hx)]
      simp only [List.any_cons, List.any_nil, Bool.or_false]
      rw [show ("*.".data ++ h).drop 2 = h from rfl]
      simp only [Bool.and_eq_true, List.isSuffixOf_iff_suffix, bne_iff_ne, ne_eq]
      refine ⟨⟨"sub".data, rfl⟩, fun heq => ?_⟩
      have := congrArg List.length heq
      simp at this
      omega
  · intro P
    simp [is_domain_allowed]

/-- C2 witness: the matcher properties at `h = "example.com"`. -/
theorem allow_list_matcher_correct_witness :
    is_domain_allowed "example.com".data ["example.com".data] = true ∧
    is_domain_allowed "example.com".data ["*.".data ++ "example.com".data] = false ∧
    is_domain_allowed ("sub.".data ++ "example.com".data)
      ["*.".data ++ "example.com".data] = true ∧
    is_domain_allowed [] ["example.com".data] = false := by
  obtain ⟨h1, h2, h3⟩ := allow_list_matcher_correct "example.com".data (by decide)
  obtain ⟨h2a, h2b⟩ := h2 (by decide)
  exact ⟨h1, h2a, h2b, h3 ["example.com".data]⟩

/-- C1: the two-layer empty-whitelist policy.  At the matcher level,
`is_domain_allowed(d, [])` is `false` for every domain; yet in the delivery
pipeline, every request reaching an active project and active script whose
active whitelist pattern set is empty is served the primary payload
(`script.js_code`) and logged as allowed, whatever its Origin/Referer. -/
theorem empty_whitelist_policy :
    (∀ d : List Char, is_domain_allowed d [] = false) ∧
    (∀ (projects : List Project) (slug file : List Char) (h : Headers)
        (project : Project) (script : Script),
      is_script_request h = true →
      List.isSuffixOf ".js".data file = true →
      findProject projects slug = some project →
      project.status ≠ "paused".data →
      findScript project (file.take (file.length - 3)) = some script →
      script.status ≠ "disabled".data →
      activePatterns script = [] →
      deliver_js projects slug file h =
        (jsResponse script.js_code,
         [_log_access project.id (some script.id) h true
           (some (normalize_domain (pyOr h.origin h.referer))) none])) := by
  constructor
  · intro d
    simp [is_domain_allowed]
  · intro projects slug file h project script hreq hjs hfp hps hfs hds hwl
    simp [deliver_js, hreq, hjs, hfp, hps, hfs, hds, hwl]

/-- C6 counterexample: on navigation-classified headers the paused-project
state answers with the 403 error page, not the neutral no-op with success
status the claim promises for every header map — though the response is
still identical to the missing-project state's. -/
theorem paused_missing_noop_counterexample :
    (deliver_js [projectPaused] "alpha".data "tag.js".data hdrNavigation).1 ≠ noop_response ∧
    (deliver_js [projectPaused] "alpha".data "tag.js".data hdrNavigation).1.status = 403 ∧
    (deliver_js [projectPaused] "alpha".data "tag.js".data hdrNavigation).1 =
      (deliver_js [] "alpha".data "tag.js".data hdrNavigation).1 :=
  ⟨fun heq => by
      have h1 : (403 : Nat) = noop_response.status := by rw [← heq]; rfl
      simp [noop_response, jsResponse] at h1,
    rfl, rfl⟩

/-- C6 (amended): paused/not-found indistinguishability.  For identical
headers and path, the paused-project state and the missing-project state
produce byte-identical HTTP responses, for every caller domain; for requests
classified as script loads that common response is the neutral no-op with
success status, the JavaScript media type and the shared cache/Vary headers,
while navigation-classified requests receive the (still identical) 403 error
page in both states. -/
theorem paused_missing_indistinguishable :
    ∀ (s1 s2 : List Project) (slug file : List Char) (h : Headers) (project : Project),
      findProject s1 slug = some project → project.status = "paused".data →
      findProject s2 slug = none →
      (deliver_js s1 slug file h).1 = (deliver_js s2 slug file h).1 ∧
      (is_script_request h = true →
        (deliver_js s1 slug file h).1 = noop_response ∧
        (deliver_js s1 slug file h).1.status = 200 ∧
        (deliver_js s1 slug file h).1.mediaType = jsMediaType ∧
        (deliver_js s1 slug file h).1.headers = JS_CACHE_HEADERS) ∧
      (is_script_request h = false →
        (deliver_js s1 slug file h).1 = direct_access_response) := by
  intro s1 s2 slug file h project h1 h2 h3
  refine ⟨?_, ?_, ?_⟩
  · by_cases hreq : is_script_request h
    · by_cases hjs : List.isSuffixOf ".js".data file
      · simp [deliver_js, hreq, hjs, h1, h2, h3]
      · simp [deliver_js, hreq, hjs]
    · simp [deliver_js, hreq]
  · intro hreq
    have hnoop : (deliver_js s1 slug file h).1 = noop_response := by
      by_cases hjs : List.isSuffixOf ".js".data file
      · simp [deliver_js, hreq, hjs, h1, h2]
      · simp [deliver_js, hreq, hjs]
    exact ⟨hnoop, by rw [hnoop]; rfl, by rw [hnoop]; rfl, by rw [hnoop]; rfl⟩
  · intro hreq
    simp [deliver_js, hreq]

/-- C1 witness: a concrete empty-whitelist script served to an arbitrary
origin and logged as allowed. -/
theorem empty_whitelist_policy_witness :
    is_domain_allowed "any-caller.example".data [] = false ∧
    deliver_js [projectOpen] "demo".data "widget.js".data hdrScriptLoad =
      (jsResponse scriptNoWhitelist.js_code,
       [_log_access projectOpen.id (some scriptNoWhitelist.id) hdrScriptLoad true
         (some (normalize_domain (pyOr hdrScriptLoad.origin hdrScriptLoad.referer))) none]) :=
  ⟨empty_whitelist_policy.1 "any-caller.example".data,
   empty_whitelist_policy.2 [projectOpen] "demo".data "widget.js".data hdrScriptLoad
     projectOpen scriptNoWhitelist (by decide) (by decide) (by decide) (by decide)
     (by decide) (by decide) (by decide)⟩

/-- C6 witness: the paused project `alpha` versus an empty store, on a
script-classified request — equal responses, and the common response is the
neutral no-op. -/
theorem paused_missing_indistinguishable_witness :
    (deliver_js [projectPaused] "alpha".data "tag.js".data hdrScriptLoad).1 =
      (deliver_js [] "alpha".data "tag.js".data hdrScriptLoad).1 ∧
    (deliver_js [projectPaused] "alpha".data "tag.js".data hdrScriptLoad).1 =
      noop_response :=
  have hmain := paused_missing_indistinguishable [projectPaused] [] "alpha".data
    "tag.js".data hdrScriptLoad projectPaused (by decide) (by decide) (by decide)
  ⟨hmain.1, (hmain.2.1 (by decide)).1⟩

/-- C4 counterexample: with no project under the slug, a request classified
as direct navigation receives the 403 error page, not the neutral no-op the
claim's `ResolveProject → … → ClassifyRequest` ordering promises — the code
classifies before it looks anything up. -/
theorem pre_classification_counterexample :
    (deliver_js [] "demo".data "widget.js".data hdrNavigation).1 ≠ noop_response ∧
    findProject [] "demo".data = none ∧ is_script_request hdrNavigation = false := by
  decide

/-- C4 (amended): classification precedes the suffix check and resolution.
A request classified as navigation receives the error page with no lookup;
for script-classified requests, a file not ending in `.js` yields the neutral
no-op with no lookup performed, and a missing project yields the no-op. -/
theorem classification_precedes_pipeline :
    ∀ (projects : List Project) (slug file : List Char) (h : Headers),
      (is_script_request h = false →
        deliver_js projects slug file h = (direct_access_response, [])) ∧
      (is_script_request h = true → List.isSuffixOf ".js".data file = false →
        deliver_js projects slug file h = (noop_response, [])) ∧
      (is_script_request h = true → findProject projects slug = none →
        deliver_js projects slug file h = (noop_response, [])) := by
  intro projects slug file h
  refine ⟨?_, ?_, ?_⟩
  · intro hreq
    simp [deliver_js, hreq]
  · intro hreq hjs
    simp [deliver_js, hreq, hjs]
  · intro hreq hfp
    by_cases hjs : List.isSuffixOf ".js".data file
    · simp [deliver_js, hreq, hjs, hfp]
    · simp [deliver_js, hreq, hjs]

/-- C4 witness: the three amended early exits at concrete inputs. -/
theorem classification_precedes_pipeline_witness :
    deliver_js [projectOpen] "demo".data "widget.js".data hdrNavigation =
      (direct_access_response, []) ∧
    deliver_js [projectOpen] "demo".data "widget.txt".data hdrScriptLoad =
      (noop_response, []) ∧
    deliver_js [] "nosuch".data "widget.js".data hdrScriptLoad = (noop_response, []) :=
  ⟨(classification_precedes_pipeline [projectOpen] "demo".data "widget.js".data
      hdrNavigation).1 (by decide),
   (classification_precedes_pipeline [projectOpen] "demo".data "widget.txt".data
      hdrScriptLoad).2.1 (by decide) (by decide),
   (classification_precedes_pipeline [] "nosuch".data "widget.js".data
      hdrScriptLoad).2.2 (by decide) (by decide)⟩

/-- C5 counterexample: the script-missing branch writes one log record
(the claim says it writes none), and the navigation error page branch writes
none (the claim says it logs once). -/
theorem access_recorder_counterexample :
    (deliver_js [projectNoScripts] "empty".data "gone.js".data hdrScriptLoad).2.length = 1 ∧
    (deliver_js [projectOpen] "demo".data "widget.js".data hdrNavigation).2.length = 0 := by
  decide

/-- C5 (amended): access-recorder branch coverage.  Paused project, disabled
script, primary served, fallback served and empty-whitelist allow each log
exactly once with the final decision; the script-missing branch also logs
once (with no script id); the project-missing, non-`.js` and navigation
error page branches write no log. -/
theorem access_recorder_branches :
    ∀ (projects : List Project) (slug file : List Char) (h : Headers)
      (project : Project) (script : Script),
      (is_script_request h = false → (deliver_js projects slug file h).2 = []) ∧
      (is_script_request h = true → List.isSuffixOf ".js".data file = false →
        (deliver_js projects slug file h).2 = []) ∧
      (is_script_request h = true → List.isSuffixOf ".js".data file = true →
        findProject projects slug = none → (deliver_js projects slug file h).2 = []) ∧
      (is_script_request h = true → List.isSuffixOf ".js".data file = true →
        findProject projects slug = some project → project.status = "paused".data →
        (deliver_js projects slug file h).2 =
          [_log_access project.id none h false none none]) ∧
      (is_script_request h = true → List.isSuffixOf ".js".data file = true →
        findProject projects slug = some project → project.status ≠ "paused".data →
        findScript project (file.take (file.length - 3)) = none →
        (deliver_js projects slug file h).2 =
          [_log_access project.id none h false none none]) ∧
      (is_script_request h = true → List.isSuffixOf ".js".data file = true →
        findProject projects slug = some project → project.status ≠ "paused".data →
        findScript project (file.take (file.length - 3)) = some script →
        script.status = "disabled".data →
        (deliver_js projects slug file h).2 =
          [_log_access project.id (some script.id) h false none none]) ∧
      (is_script_request h = true → List.isSuffixOf ".js".data file = true →
        findProject projects slug = some project → project.status ≠ "paused".data →
        findScript project (file.take (file.length - 3)) = some script →
        script.status ≠ "disabled".data →
        (deliver_js projects slug file h).2 =
          [_log_access project.id (some script.id) h
            (activePatterns script = [] ∨
              is_domain_allowed (normalize_domain (pyOr h.origin h.referer))
                (activePatterns script) = true)
            (some (normalize_domain (pyOr h.origin h.referer))) none]) := by
  intro projects slug file h project script
  refine ⟨?_, ?_, ?_, ?_, ?_, ?_, ?_⟩
  · intro hreq; simp [deliver_js, hreq]
  · intro hreq hjs; simp [deliver_js, hreq, hjs]
  · intro hreq hjs hfp; simp [deliver_js, hreq, hjs, hfp]
  · intro hreq hjs hfp hps; simp [deliver_js, hreq, hjs, hfp, hps]
  · intro hreq hjs hfp hps hfs; simp [deliver_js, hreq, hjs, hfp, hps, hfs]
  · intro hreq hjs hfp hps hfs hds; simp [deliver_js, hreq, hjs, hfp, hps, hfs, hds]
  · intro hreq hjs hfp hps hfs hds
    by_cases hwl : activePatterns script = []
    · simp [deliver_js, hreq, hjs, hfp, hps, hfs, hds, hwl]
    · by_cases hall : is_domain_allowed (normalize_domain (pyOr h.origin h.referer))
        (activePatterns script) = true
      · simp [deliver_js, hreq, hjs, hfp, hps, hfs, hds, hwl, hall]
      · simp [deliver_js, hreq, hjs, hfp, hps, hfs, hds, hwl, hall]

/-- C5 witness: the paused-project and script-missing log records. -/
theorem access_recorder_branches_witness :
    (deliver_js [projectPaused] "alpha".data "tag.js".data hdrScriptLoad).2 =
      [_log_access projectPaused.id none hdrScriptLoad false none none] ∧
    (deliver_js [projectNoScripts] "empty".data "gone.js".data hdrScriptLoad).2 =
      [_log_access projectNoScripts.id none hdrScriptLoad false none none] :=
  ⟨(access_recorder_branches [projectPaused] "alpha".data "tag.js".data hdrScriptLoad
      projectPaused scriptNoWhitelist).2.2.2.1 (by decide) (by decide) (by decide) (by decide),
   (access_recorder_branches [projectNoScripts] "empty".data "gone.js".data hdrScriptLoad
      projectNoScripts scriptNoWhitelist).2.2.2.2.1 (by decide) (by decide) (by decide)
     (by decide) (by decide)⟩

theorem filter_strip_comm (l : List (List Char)) :
    (l.filter fun u => !(pyStrip u).isEmpty).map pyStrip =
      (l.map pyStrip).filter fun v => !v.isEmpty := by
  induction l with
  | nil => rfl
  | cons a t ih => by_cases hp : (pyStrip a).isEmpty <;> simp [hp, ih]

/-- C8: popunder payload assembly and gating.  A non-`.js` file, an unknown
slug or a paused campaign yields the neutral no-op; otherwise the response is
the fixed engine template with the campaign's config spliced in, whose `urls`
are exactly the non-empty trimmed lines of `url_list` in order and whose
`timer`/`freq`/`devices`/`countries`/`banner`/`html` are carried through from
the current settings with their documented defaults when absent. -/
theorem popunder_assembly_gating :
    ∀ (campaigns : List PopunderCampaign) (file base : List Char) (h : Headers)
      (c : PopunderCampaign),
      (List.isSuffixOf ".js".data file = false →
        deliver_popunder_js campaigns file base h = noop_response) ∧
      (List.isSuffixOf ".js".data file = true →
        findCampaign campaigns (file.take (file.length - 3)) = none →
        deliver_popunder_js campaigns file base h = noop_response) ∧
      (List.isSuffixOf ".js".data file = true →
        findCampaign campaigns (file.take (file.length - 3)) = some c →
        c.status = "paused".data →
        deliver_popunder_js campaigns file base h = noop_response) ∧
      (List.isSuffixOf ".js".data file = true →
        findCampaign campaigns (file.take (file.length - 3)) = some c →
        c.status ≠ "paused".data →
        deliver_popunder_js campaigns file base h =
          jsResponse (popunderEngineBody (buildPopConfig c) (rstripChar '/' base)) ∧
        (buildPopConfig c).urls =
          trimmedNonEmptyLines ((c.settings.getD {}).url_list.getD []) ∧
        (buildPopConfig c).timer = (c.settings.getD {}).timer.getD 0 ∧
        (buildPopConfig c).freq = (c.settings.getD {}).frequency.getD 1 ∧
        (buildPopConfig c).devices =
          (c.settings.getD {}).devices.getD ["desktop".data, "mobile".data, "tablet".data] ∧
        (buildPopConfig c).countries = (c.settings.getD {}).countries.getD [] ∧
        (buildPopConfig c).banner = (c.settings.getD {}).floating_banner.getD [] ∧
        (buildPopConfig c).html = (c.settings.getD {}).html_body.getD []) := by
  intro campaigns file base h c
  refine ⟨?_, ?_, ?_, ?_⟩
  · intro hjs; simp [deliver_popunder_js, hjs]
  · intro hjs hfc; simp [deliver_popunder_js, hjs, hfc]
  · intro hjs hfc hps; simp [deliver_popunder_js, hjs, hfc, hps]
  · intro hjs hfc hps
    refine ⟨by simp [deliver_popunder_js, hjs, hfc, hps], ?_, rfl, rfl, rfl, rfl, rfl, rfl⟩
    simp only [buildPopConfig, trimmedNonEmptyLines]
    exact filter_strip_comm _

/-- C8 witness: the gating and assembly at a concrete campaign. -/
theorem popunder_assembly_gating_witness :
    deliver_popunder_js [campaignActive] "promo.txt".data "http://h/".data hdrNavigation =
      noop_response ∧
    deliver_popunder_js [campaignActive] "promo.js".data "http://h/".data hdrNavigation =
      jsResponse (popunderEngineBody (buildPopConfig campaignActive)
        (rstripChar '/' "http://h/".data)) ∧
    (buildPopConfig campaignActive).urls =
      trimmedNonEmptyLines ((campaignActive.settings.getD {}).url_list.getD []) :=
  have hmain := (popunder_assembly_gating [campaignActive] "promo.js".data
    "http://h/".data hdrNavigation campaignActive).2.2.2 (by decide) (by decide) (by decide)
  ⟨(popunder_assembly_gating [campaignActive] "promo.txt".data "http://h/".data
      hdrNavigation campaignActive).1 (by decide),
   hmain.1, hmain.2.1⟩

/-- C10: popunder endpoint uniformity.  Whatever the headers and campaign
state, the response has success status and the JavaScript media type with the
shared cache/Vary headers, is independent of the request headers, and is
never the direct-access error page. -/
theorem popunder_uniform_response :
    ∀ (campaigns : List PopunderCampaign) (file base : List Char) (h h' : Headers),
      (deliver_popunder_js campaigns file base h).status = 200 ∧
      (deliver_popunder_js campaigns file base h).mediaType = jsMediaType ∧
      (deliver_popunder_js campaigns file base h).headers = JS_CACHE_HEADERS ∧
      deliver_popunder_js campaigns file base h = deliver_popunder_js campaigns file base h' ∧
      deliver_popunder_js campaigns file base h ≠ direct_access_response := by
  intro campaigns file base h h'
  obtain ⟨b, hb⟩ : ∃ b, deliver_popunder_js campaigns file base h = jsResponse b := by
    by_cases hjs : List.isSuffixOf ".js".data file
    · cases hfc : findCampaign campaigns (file.take (file.length - 3)) with
      | none => exact ⟨NOOP_JS, by simp only [deliver_popunder_js, hjs, hfc]; rfl⟩
      | some c =>
        by_cases hps : c.status = "paused".data
        · exact ⟨NOOP_JS, by simp only [deliver_popunder_js, hjs, hfc, hps]; rfl⟩
        · exact ⟨popunderEngineBody (buildPopConfig c) (rstripChar '/' base), by
            simp only [deliver_popunder_js, hjs, hfc]
            rw [if_neg hps]
            simp⟩
    · exact ⟨NOOP_JS, by simp only [deliver_popunder_js, hjs]; simp [noop_response]⟩
  refine ⟨by rw [hb]; rfl, by rw [hb]; rfl, by rw [hb]; rfl, rfl, ?_⟩
  rw [hb]
  intro heq
  have := congrArg HttpResponse.status heq
  simp [jsResponse, direct_access_response] at this

end JSHost
